import Mathlib

/-!
Verification of the YSF-Image-Copy photo-log encoder (`ysf.py`, `api.py`).

The Python code is shallowly embedded: every fallible Python operation
(`bytes(s, 'ASCII')`, `int.to_bytes`, `strptime`, `Image.open`) is modelled
as an `Except PyErr` computation, machine integers are `Nat`/`Int`, EXIF
rational values are `ℚ`, and the clock reads (`datetime.now()`) are passed
in as explicit `DateTime` parameters.  Filesystem effects are reified: the
bytes that would land in `QSOPCTDIR.DAT`, `QSOPCTFAT.DAT` and `QSOMNG.DAT`
are returned as lists of byte values (naturals < 256).
-/

/-- Python exception kinds relevant to `ysf.py`: `IOError` (file open /
render / write failures), `ValueError` (`strptime`, missing EXIF),
`UnicodeEncodeError` (`bytes(s, 'ASCII')` on non-ASCII text) and
`OverflowError` (`int.to_bytes` when the value does not fit). -/
inductive PyErr
  | ioError
  | valueError
  | unicodeError
  | overflowError
deriving DecidableEq, Repr

/-- `bytes(s, 'ASCII')`: one byte per character, failing with
`UnicodeEncodeError` when a character is outside the ASCII range. -/
def asciiBytes (s : String) : Except PyErr (List ℕ) :=
  if s.data.all (fun c => c.toNat < 128) then .ok (s.data.map Char.toNat)
  else .error .unicodeError

/-- The digit list of `n.to_bytes(len, byteorder='big')`, most significant
byte first. -/
def natToBEList (len n : ℕ) : List ℕ :=
  (List.range len).map (fun i => n / 256 ^ (len - 1 - i) % 256)

/-- `n.to_bytes(len, byteorder='big', signed=False)`: raises
`OverflowError` when `n` does not fit into `len` bytes. -/
def toBytesBE (len n : ℕ) : Except PyErr (List ℕ) :=
  if n < 256 ^ len then .ok (natToBEList len n) else .error .overflowError

/-- A run of `n` ASCII spaces. -/
def spacesStr (n : ℕ) : String := String.mk (List.replicate n ' ')

/-- String truncation, as performed by a precision field such as
`'{:.5}'.format(s)`: keep at most the first `k` characters, never pad. -/
def strTake (k : ℕ) (s : String) : String := String.mk (s.data.take k)

/-- Python `str.ljust(w)`: pad on the right with spaces up to width `w`,
never truncate. -/
def ljust (w : ℕ) (s : String) : String := s ++ spacesStr (w - s.length)

/-- `'{:w.w}'.format(s)` (e.g. the `'{:11.11}'` description field):
truncate to `w` characters, then left-justify in a `w`-wide field. -/
def fmtFixed (w : ℕ) (s : String) : String := ljust w (strTake w s)

/-- `'{:1.1}'.format(s)`: at most one character, padded to width one. -/
def fmtRef (s : String) : String :=
  if s.data.isEmpty then " " else String.mk (s.data.take 1)

/-- Decimal digits of `n`, most significant first (fuel-driven so that the
kernel can evaluate it). -/
def natDigitsAux : ℕ → ℕ → List Char
  | 0, _ => []
  | fuel + 1, n =>
    if n < 10 then [Nat.digitChar n]
    else natDigitsAux fuel (n / 10) ++ [Nat.digitChar (n % 10)]

/-- Decimal digit string of `n`, as produced by `'{:d}'.format(n)`. -/
def natDigits (n : ℕ) : List Char := natDigitsAux (n + 1) n

/-- `'{:0wd}'.format(n)` for `n ≥ 0`: zero-pad on the left to width `w`;
numbers with more than `w` digits keep all their digits. -/
def zeroPadNat (w n : ℕ) : String :=
  String.mk (List.replicate (w - (natDigits n).length) '0' ++ natDigits n)

/-- `'{:0wd}'.format(z)` for a possibly negative integer: the sign counts
toward the field width. -/
def zeroPadInt (w : ℕ) (z : ℤ) : String :=
  if z < 0 then "-" ++ zeroPadNat (w - 1) z.natAbs else zeroPadNat w z.natAbs

/-- Python `int(q)` on an exact rational: truncation toward zero. -/
def pyInt (q : ℚ) : ℤ := q.num.tdiv q.den

/-- `os.path.basename`: the part of the path after the last separator. -/
def basename (s : String) : String :=
  String.mk ((s.data.reverse.takeWhile (fun c => c ≠ '/')).reverse)

/-- The first six fields of a `time.struct_time` (`when.timetuple()[:6]`):
year, month, day, hour, minute, second. -/
structure DateTime where
  year : ℕ
  month : ℕ
  day : ℕ
  hour : ℕ
  minute : ℕ
  second : ℕ
deriving DecidableEq, Repr

/-- `ysf.dec2hex`: pack a decimal field into one byte whose hex digits
read as the decimal digits (`v = val % 100; v % 10 + 16 * (v // 10)`). -/
def dec2hex (val : ℕ) : ℕ :=
  let v := val % 100
  v % 10 + 16 * (v / 10)

/-- `ysf.writedate`: the six bytes appended to the stream, one `dec2hex`
byte per calendar field.  (Each byte is written with `to_bytes(1, 'big')`,
which never overflows because `dec2hex` is bounded by 153 < 256; see
`dec2hex_lt_256`.) -/
def writedate (when : DateTime) : List ℕ :=
  [dec2hex when.year, dec2hex when.month, dec2hex when.day,
   dec2hex when.hour, dec2hex when.minute, dec2hex when.second]

/-- The GPS-related EXIF tags that `encodegps` reads, each individually
optional (`get_geotagging` copies into its dictionary only the
`GPSTAGS` keys that are present). -/
structure GpsInfo where
  latRef : Option String
  lat : Option (ℚ × ℚ × ℚ)
  lonRef : Option String
  lon : Option (ℚ × ℚ × ℚ)
deriving DecidableEq

/-- Decoded EXIF metadata: the `GPSInfo` IFD (absent when the tag is
missing) and the `DateTimeOriginal` string (tag 36867). -/
structure ExifData where
  gps : Option GpsInfo
  dateTimeOriginal : Option String
deriving DecidableEq

/-- `ysf.get_geotagging`: raises `ValueError` when there is no EXIF data
at all (`exif` falsy, modelled as `none`) or when the `GPSInfo` tag is
absent; otherwise returns the dictionary of present GPS tags. -/
def get_geotagging (exif : Option ExifData) : Except PyErr GpsInfo :=
  match exif with
  | none => .error .valueError
  | some e =>
    match e.gps with
    | none => .error .valueError
    | some g => .ok g

/-- The 20-space fallback GPS string of `ysf.encodegps`. -/
def blank_gps : String := "                    "

/-- One coordinate of the YSF GPS string: hemisphere letter (`'{:1.1}'`),
3-digit degrees, 2-digit minutes, 4-digit seconds×100 (each via
`int(...)`). -/
def encCoord (ref : String) (d m s : ℚ) : String :=
  fmtRef ref ++ zeroPadInt 3 (pyInt d) ++ zeroPadInt 2 (pyInt m) ++
    zeroPadInt 4 (pyInt (100 * s))

/-- `ysf.encodegps`: blank when `exif` is falsy, when `get_geotagging`
raises `ValueError`, or when any of the four GPS values is missing from
the dictionary (the `KeyError` handler); otherwise the packed
latitude/longitude string. -/
def encodegps (exif : Option ExifData) : String :=
  match exif with
  | none => blank_gps
  | some e =>
    match get_geotagging (some e) with
    | .error _ => blank_gps
    | .ok g =>
      match g.latRef, g.lat, g.lonRef, g.lon with
      | some r1, some (d1, m1, s1), some r2, some (d2, m2, s2) =>
        encCoord r1 d1 m1 s1 ++ encCoord r2 d2 m2 s2
      | _, _, _, _ => blank_gps

/-- Read one or two decimal digits (greedy), as the `strptime` patterns
for `%m`, `%d`, `%H`, `%M`, `%S` do. -/
def read1or2 (cs : List Char) : Option (ℕ × List Char) :=
  match cs with
  | [] => none
  | c1 :: rest =>
    if c1.isDigit then
      match rest with
      | c2 :: rest2 =>
        if c2.isDigit then some (10 * (c1.toNat - 48) + (c2.toNat - 48), rest2)
        else some (c1.toNat - 48, rest)
      | [] => some (c1.toNat - 48, [])
    else none

/-- Read exactly four decimal digits, as the `strptime` pattern for `%Y`
does. -/
def read4 (cs : List Char) : Option (ℕ × List Char) :=
  match cs with
  | a :: b :: c :: d :: rest =>
    if a.isDigit && b.isDigit && c.isDigit && d.isDigit then
      some (1000 * (a.toNat - 48) + 100 * (b.toNat - 48) +
            10 * (c.toNat - 48) + (d.toNat - 48), rest)
    else none
  | _ => none

/-- Consume one expected literal character. -/
def expectChar (c : Char) (cs : List Char) : Option (List Char) :=
  match cs with
  | x :: rest => if x = c then some rest else none
  | [] => none

/-- Model of `datetime.strptime(s, '%Y:%m:%d %H:%M:%S')`: four-digit year,
then month/day/hour/minute/second of one or two digits with the literal
separators, the whole input consumed, and each field range-checked
(month 1–12, day 1–31, hour ≤ 23, minute/second ≤ 59).  `none` models the
`ValueError` that `strptime` raises on malformed input. -/
def strptimeYmdHms (s : String) : Option DateTime := do
  let (y, r1) ← read4 s.data
  let r2 ← expectChar ':' r1
  let (mo, r3) ← read1or2 r2
  let r4 ← expectChar ':' r3
  let (d, r5) ← read1or2 r4
  let r6 ← expectChar ' ' r5
  let (h, r7) ← read1or2 r6
  let r8 ← expectChar ':' r7
  let (mi, r9) ← read1or2 r8
  let r10 ← expectChar ':' r9
  let (se, r11) ← read1or2 r10
  if r11.isEmpty ∧ 1 ≤ mo ∧ mo ≤ 12 ∧ 1 ≤ d ∧ d ≤ 31 ∧ h ≤ 23 ∧ mi ≤ 59 ∧ se ≤ 59 then
    some ⟨y, mo, d, h, mi, se⟩
  else none

/-- `ysf.get_date_taken`: the embedded capture time parsed from tag 36867,
`now` when the EXIF data is falsy or the tag is absent (the `KeyError`
handler), and an uncaught `ValueError` when the tag is present but does
not parse (`strptime` raises `ValueError`, the function catches only
`KeyError`). -/
def get_date_taken (exif : Option ExifData) (now : DateTime) :
    Except PyErr DateTime :=
  match exif with
  | none => .ok now
  | some e =>
    match e.dateTimeOriginal with
    | none => .ok now
    | some s =>
      match strptimeYmdHms s with
      | some d => .ok d
      | none => .error .valueError

/-- `ysf.picfilename`: `"H{:.5}{:06d}.jpg".format(radio_id, seq_num)` —
the radio id is truncated to five characters (never padded) and the
sequence number zero-padded to at least six digits. -/
def picfilename (radio_id : String) (seq_num : ℕ) : String :=
  "H" ++ strTake 5 radio_id ++ zeroPadNat 6 seq_num ++ ".jpg"

/-- What `Image.open` + `getexif` yield for one photo, together with the
outcome of the per-photo filesystem work of lines 231–237 of `ysf.py`:
`exif` is the decoded EXIF metadata (`none` when absent or empty), and
`render` is the result of `os.makedirs` + `shrink_image`
(`image.thumbnail`/`image.save`) + `os.path.getsize` — either the byte
size the rendered thumbnail file has on disk, or the exception that work
raises (for instance a corrupt-but-openable image, which PIL only
decodes when the thumbnail is computed and saved).  Failures of
`Image.open` itself are modelled at the call site (`env`). -/
structure PhotoInput where
  exif : Option ExifData
  render : Except PyErr ℕ

/-- The metadata of a `write_log` call that ran to completion: the
generated thumbnail filename written under `PHOTO/`, and whether
`paint_text` was invoked by `shrink_image`. -/
structure LogMeta where
  thumbName : String
  painted : Bool
deriving DecidableEq

/-- `ysf.shrink_image` draws overlay text exactly when `text` is not
`None` (`if text != None: paint_text(...)`); the flag records whether
`paint_text` ran. -/
def shrink_image (text : Option String) : Bool := text.isSome

/-- One fallible write to the shared `BytesIO` stream: on success the
produced bytes are appended and execution continues with the grown
stream; on an exception the bytes already in the stream stay there and
the exception is reported alongside them. -/
def emit {α : Type} (s : List ℕ) (x : Except PyErr (List ℕ))
    (k : List ℕ → List ℕ × Except PyErr α) : List ℕ × Except PyErr α :=
  match x with
  | .error e => (s, .error e)
  | .ok b => k (s ++ b)

/-- One fallible step that writes nothing itself: on an exception the
stream contents so far stay in place and the exception is reported
alongside them. -/
def fetch {α β : Type} (s : List ℕ) (x : Except PyErr β)
    (k : β → List ℕ × Except PyErr α) : List ℕ × Except PyErr α :=
  match x with
  | .error e => (s, .error e)
  | .ok v => k v

/-- `ysf.write_log`: open the photo (`env picfile` models `Image.open`,
which raises `IOError` on an unreadable file before anything is
written), then append the fixed-order fields to the shared stream:
4 zero bytes, 5 node-id spaces, the 10-byte "ALL" destination, 6 spaces,
the radio id (written verbatim, neither padded nor truncated), the
callsign `ljust(16)`, three 6-byte BCD dates (now−1h, now, capture
time), the 11-byte description (`'{:11.11}'` of the basename), 5 spaces,
then — after the `os.makedirs`/`shrink_image`/`os.path.getsize` work of
lines 231–237, modelled by `pic.render` — the 4-byte big-endian
thumbnail size, the generated filename, the GPS string, and 8 trailing
spaces.  The result pairs the bytes this call left in the stream with
its outcome: an exception part-way through (e.g. an `IOError` from the
rendering step) leaves the bytes already written sitting in the shared
stream.  The three `datetime.now()` reads are the parameters `t1`
(already shifted by −1 hour), `t2`, and `t3` (the fallback inside
`get_date_taken`). -/
def write_log (env : String → Except PyErr PhotoInput) (picfile : String)
    (call_sign radio_id : String) (picnum : ℕ) (text : Option String)
    (colour : String) (t1 t2 t3 : DateTime) :
    List ℕ × Except PyErr LogMeta :=
  fetch [] (env picfile) fun pic =>
  emit ([0, 0, 0, 0] ++ [0x20, 0x20, 0x20, 0x20, 0x20])
      (asciiBytes "ALL       ") fun s =>
  emit s (asciiBytes "      ") fun s =>
  emit s (asciiBytes radio_id) fun s =>
  emit s (asciiBytes (ljust 16 call_sign)) fun s =>
  fetch (s ++ writedate t1 ++ writedate t2) (get_date_taken pic.exif t3)
      fun taken =>
  emit (s ++ writedate t1 ++ writedate t2 ++ writedate taken)
      (asciiBytes (fmtFixed 11 (basename picfile))) fun s =>
  emit s (asciiBytes "     ") fun s =>
  fetch s pic.render fun size =>
  emit s (toBytesBE 4 size) fun s =>
  emit s (asciiBytes (picfilename radio_id picnum)) fun s =>
  emit s (asciiBytes (encodegps pic.exif)) fun s =>
  emit s (asciiBytes "        ") fun s =>
  (s, .ok ⟨picfilename radio_id picnum, shrink_image text⟩)

/-- The three files written under `QSOLOG/`. -/
structure OutFiles where
  dirF : List ℕ
  fatF : List ℕ
  mngF : List ℕ
deriving DecidableEq

/-- The FAT bytes as a pure list: one `0x40` marker plus a 3-byte
big-endian offset `0x80 * i` per record, in record order. -/
def fatList : ℕ → List ℕ
  | 0 => []
  | n + 1 => fatList n ++ 0x40 :: natToBEList 3 (0x80 * n)

/-- `ysf.write_fat`: the loop `for pnum in range(pic_count)` writing
`b'\x40'` followed by `(0x80 * pnum).to_bytes(3, 'big')`; the
`to_bytes` call raises `OverflowError` once the offset no longer fits in
three bytes. -/
def write_fat : (pic_count : ℕ) → Except PyErr (List ℕ)
  | 0 => .ok []
  | n + 1 => do
    let pre ← write_fat n
    let addr ← toBytesBE 3 (0x80 * n)
    .ok (pre ++ 0x40 :: addr)

/-- `ysf.write_mng`: 2-byte message count, 14 bytes of `0xff` padding,
2-byte photo count, 2-byte group count, 12 bytes of `0xff` padding. -/
def write_mng (msg_count pic_count grp_count : ℕ) : Except PyErr (List ℕ) := do
  let m ← toBytesBE 2 msg_count
  let p ← toBytesBE 2 pic_count
  let g ← toBytesBE 2 grp_count
  .ok (m ++ List.replicate 14 0xff ++ p ++ g ++ List.replicate 12 0xff)

/-- Lines 354–364 of `ysf.main`: when at least one picture was written,
emit `QSOPCTDIR.DAT` (the accumulated stream), then `write_fat`, then
`write_mng(outdir, 0, pic_count, 0)`; an empty batch writes nothing. -/
def writeOutputs (stream : List ℕ) (pic_count : ℕ) :
    Except PyErr (Option OutFiles) :=
  if 0 < pic_count then do
    let fat ← write_fat pic_count
    let mng ← write_mng 0 pic_count 0
    .ok (some ⟨stream, fat, mng⟩)
  else .ok none

/-- Lines 346–352 of `ysf.main`: iterate the directory listing, calling
`write_log` with sequence number `pic_count + 1` for each file; an
`IOError` is caught (`print("cannot convert", ...)`) and the loop
continues with the next file without incrementing `pic_count` — but the
bytes the failed call already wrote remain in the shared `BytesIO`
stream; any other exception propagates and aborts the run. -/
def dirLoop (env : String → Except PyErr PhotoInput)
    (callsign radioid : String) (text : Option String) (colour : String)
    (t1 t2 t3 : DateTime) :
    List String → List ℕ → ℕ → Except PyErr (List ℕ × ℕ)
  | [], bs, cnt => .ok (bs, cnt)
  | f :: rest, bs, cnt =>
    match write_log env f callsign radioid (cnt + 1) text colour t1 t2 t3 with
    | (w, .ok _) => dirLoop env callsign radioid text colour t1 t2 t3 rest
        (bs ++ w) (cnt + 1)
    | (w, .error .ioError) => dirLoop env callsign radioid text colour t1 t2 t3
        rest (bs ++ w) cnt
    | (_, .error e) => .error e

/-- A whole directory batch: run the loop from an empty stream and count
zero, then write the output files; returns the written files and the
final picture count. -/
def dirBatch (env : String → Except PyErr PhotoInput)
    (callsign radioid : String) (text : Option String) (colour : String)
    (t1 t2 t3 : DateTime) (files : List String) :
    Except PyErr (Option OutFiles × ℕ) := do
  let st ← dirLoop env callsign radioid text colour t1 t2 t3 files [] 0
  let outs ← writeOutputs st.1 st.2
  .ok (outs, st.2)

/-- The in-memory state of `ysf.main` after a processing phase: the
`BytesIO` stream contents, `pic_count`, the input files successfully
written so far, and whether any overlay text was painted. -/
structure StepState where
  bs : List ℕ
  cnt : ℕ
  processed : List String
  painted : Bool
deriving DecidableEq

/-- Lines 341–343 of `ysf.main`: `if file_name:` (Python truthiness:
skipped for `None` and for the empty string) process the single
designated file with sequence number `pic_count + 1 = 1`; exceptions are
not caught here. -/
def fileStep (env : String → Except PyErr PhotoInput)
    (callsign radioid : String) (file_name : Option String)
    (text : Option String) (colour : String) (t1 t2 t3 : DateTime) :
    Except PyErr StepState :=
  match file_name with
  | none => .ok ⟨[], 0, [], false⟩
  | some f =>
    if f = "" then .ok ⟨[], 0, [], false⟩
    else
      match write_log env f callsign radioid 1 text colour t1 t2 t3 with
      | (w, .ok meta) => .ok ⟨w, 1, [f], meta.painted⟩
      | (_, .error e) => .error e

/-- Lines 345–352 of `ysf.main`: `if dir_name:` run the directory loop
over `os.listdir(dir_name)` (joined as `dir_name + '/' + filename`),
continuing from the current stream and count. -/
def dirStep (env : String → Except PyErr PhotoInput)
    (listdir : String → List String) (callsign radioid : String)
    (text : Option String) (colour : String) (t1 t2 t3 : DateTime)
    (dir_name : Option String) (st : StepState) : Except PyErr StepState :=
  match dir_name with
  | none => .ok st
  | some dn =>
    match dirLoop env callsign radioid text colour t1 t2 t3
        ((listdir dn).map (fun fn => dn ++ "/" ++ fn)) st.bs st.cnt with
    | .ok p => .ok ⟨p.1, p.2, st.processed, st.painted⟩
    | .error e => .error e

/-- The observable outcome of one `ysf.main` run: the files written under
`QSOLOG/` (`none` when `pic_count` stayed 0), the final `pic_count`, the
successfully processed input files in order, and whether any overlay text
was painted. -/
structure MainResult where
  files : Option OutFiles
  picCount : ℕ
  processed : List String
  painted : Bool
deriving DecidableEq

/-- `ysf.main(callsign, radioid, outdir, file_name)`: `dir_name`, `text`
and `colour` are local variables fixed to `None`, after which `colour`
defaults to `'red'`; then the single-file step, the (dead) directory
step, and the output-file step run in order.  `listdir` and `env` model
the filesystem; `outdir` only names the output tree and plays no role in
the returned bytes.  (Named `ysfMain` because Lean reserves `main` for
executable entry points.) -/
def ysfMain (callsign radioid outdir : String) (file_name : Option String)
    (listdir : String → List String) (env : String → Except PyErr PhotoInput)
    (t1 t2 t3 : DateTime) : Except PyErr MainResult :=
  let dir_name : Option String := none
  let text : Option String := none
  let colour0 : Option String := none
  let colour : String := colour0.getD "red"
  match fileStep env callsign radioid file_name text colour t1 t2 t3 with
  | .error e => .error e
  | .ok st1 =>
    match dirStep env listdir callsign radioid text colour t1 t2 t3
        dir_name st1 with
    | .error e => .error e
    | .ok st2 =>
      match writeOutputs st2.bs st2.cnt with
      | .error e => .error e
      | .ok files => .ok ⟨files, st2.cnt, st2.processed, st2.painted⟩

/-- Modelled from the spec: the single-file-only driver that claim C10
compares `main` against — it processes exactly the designated file (when
one is designated and nonempty), with no overlay text and the default
colour `'red'`, and touches no directory iteration at all. -/
def singleFileDriver (callsign radioid outdir : String)
    (file_name : Option String) (listdir : String → List String)
    (env : String → Except PyErr PhotoInput) (t1 t2 t3 : DateTime) :
    Except PyErr MainResult :=
  match file_name with
  | none => .ok ⟨none, 0, [], false⟩
  | some f =>
    if f = "" then .ok ⟨none, 0, [], false⟩
    else
      match write_log env f callsign radioid 1 none "red" t1 t2 t3 with
      | (_, .error e) => .error e
      | (w, .ok meta) =>
        match writeOutputs w 1 with
        | .error e => .error e
        | .ok files => .ok ⟨files, 1, [f], meta.painted⟩

/-- `api.proc` (line 27 of `api.py`): the HTTP endpoint invokes
`ysf.main(callsign, radioid, f"output{t}", "images/" + filename)` — a
single-file invocation with the uploaded file's name joined under
`images/`. -/
def apiProc (callsign radioid filename : String) (t : String)
    (listdir : String → List String) (env : String → Except PyErr PhotoInput)
    (t1 t2 t3 : DateTime) : Except PyErr MainResult :=
  ysfMain callsign radioid ("output" ++ t) (some ("images/" ++ filename))
    listdir env t1 t2 t3

/-! ### Concrete sample inputs used by witnesses and counterexamples -/

/-- A fixed calendar timestamp standing in for `datetime.now()`. -/
def sampleDate : DateTime := ⟨2020, 5, 17, 10, 30, 0⟩

/-- A photo with no EXIF metadata whose thumbnail renders successfully to
1000 bytes on disk. -/
def samplePhoto : PhotoInput := ⟨none, .ok 1000⟩

/-- A filesystem in which every path opens to `samplePhoto`. -/
def sampleEnv : String → Except PyErr PhotoInput := fun _ => .ok samplePhoto

/-- A filesystem in which `b.jpg` is unreadable (`Image.open` raises
`IOError`) and every other path opens to `samplePhoto`. -/
def skipEnv : String → Except PyErr PhotoInput := fun s =>
  if s = "b.jpg" then .error .ioError else .ok samplePhoto

/-- A filesystem in which `b.jpg` opens, but its thumbnail
rendering/saving step raises `IOError` (lines 231–237 of `ysf.py`, after
record assembly has begun); every other path opens and renders fine. -/
def renderFailEnv : String → Except PyErr PhotoInput := fun s =>
  if s = "b.jpg" then .ok ⟨none, .error .ioError⟩ else .ok samplePhoto

/-- An empty directory listing. -/
def emptyListdir : String → List String := fun _ => []

/-- The spec's worked GPS example: latitude (40, 26, 46.3) N and
longitude (79, 58, 55.1) W. -/
def exifSpecExample : Option ExifData :=
  some ⟨some ⟨some "N", some (40, 26, (463 : ℚ)/10),
              some "W", some (79, 58, (551 : ℚ)/10)⟩, none⟩

/-- A GPS dictionary whose `GPSLatitudeRef` entry is missing. -/
def gpsMissingRef : GpsInfo := ⟨none, some (1, 2, 3), some "W", some (4, 5, 6)⟩

/-- EXIF metadata whose capture-time tag holds an unparseable string. -/
def exifBadDate : ExifData := ⟨none, some "garbage"⟩

/-! ### Helper lemmas -/

theorem exceptBind_eq_ok {ε α β : Type} {x : Except ε α} {f : α → Except ε β}
    {b : β} : x >>= f = Except.ok b ↔ ∃ a, x = Except.ok a ∧ f a = Except.ok b := by
  cases x with
  | ok a => simp [Bind.bind, Except.bind]
  | error e => simp [Bind.bind, Except.bind]

theorem asciiBytes_ok_length {s : String} {l : List ℕ}
    (h : asciiBytes s = .ok l) : l.length = s.length := by
  unfold asciiBytes at h
  split at h
  · injection h with h'
    subst h'
    rw [List.length_map]
    rfl
  · exact Except.noConfusion h

theorem natToBEList_length (k n : ℕ) : (natToBEList k n).length = k := by
  simp [natToBEList]

theorem toBytesBE_ok {k n : ℕ} {l : List ℕ} (h : toBytesBE k n = .ok l) :
    l = natToBEList k n ∧ n < 256 ^ k := by
  unfold toBytesBE at h
  split at h
  · injection h with h'
    exact ⟨h'.symm, by assumption⟩
  · exact Except.noConfusion h

theorem toBytesBE_ok_length {k n : ℕ} {l : List ℕ} (h : toBytesBE k n = .ok l) :
    l.length = k := by
  rw [(toBytesBE_ok h).1]
  exact natToBEList_length k n

theorem dec2hex_lt_256 (val : ℕ) : dec2hex val < 256 := by
  have h : dec2hex val = val % 100 % 10 + 16 * (val % 100 / 10) := rfl
  rw [h]
  omega

theorem writedate_length (when : DateTime) : (writedate when).length = 6 := rfl

theorem strLen_mk (l : List Char) : (String.mk l).length = l.length :=
  String.length_mk l

theorem strLen_append (s t : String) : (s ++ t).length = s.length + t.length :=
  String.length_append s t

theorem spacesStr_length (n : ℕ) : (spacesStr n).length = n := by
  rw [spacesStr, strLen_mk, List.length_replicate]

theorem strTake_length (k : ℕ) (s : String) :
    (strTake k s).length = min k s.length := by
  rw [strTake, strLen_mk, List.length_take]
  rfl

theorem ljust_length (w : ℕ) (s : String) :
    (ljust w s).length = s.length + (w - s.length) := by
  simp [ljust, strLen_append, spacesStr_length]

theorem fmtFixed_length (w : ℕ) (s : String) : (fmtFixed w s).length = w := by
  rw [fmtFixed, ljust_length, strTake_length]
  omega

theorem natDigitsAux_length_le :
    ∀ fuel n k, n < fuel → n < 10 ^ (k + 1) →
      (natDigitsAux fuel n).length ≤ k + 1 := by
  intro fuel
  induction fuel with
  | zero => omega
  | succ fuel ih =>
    intro n k hfuel hpow
    unfold natDigitsAux
    split
    · simp
    · rename_i h10
      cases k with
      | zero => omega
      | succ kk =>
        have hdivfuel : n / 10 < fuel := by
          have := Nat.div_lt_self (by omega : 0 < n) (by omega : 1 < 10)
          omega
        have hdivpow : n / 10 < 10 ^ (kk + 1) := by
          rw [Nat.div_lt_iff_lt_mul (by omega : 0 < 10)]
          calc n < 10 ^ (kk + 2) := hpow
            _ = 10 ^ (kk + 1) * 10 := by ring
        have := ih (n / 10) kk hdivfuel hdivpow
        simp only [List.length_append, List.length_cons, List.length_nil]
        omega

theorem natDigits_length_le (n k : ℕ) (h : n < 10 ^ (k + 1)) :
    (natDigits n).length ≤ k + 1 :=
  natDigitsAux_length_le (n + 1) n k (Nat.lt_succ_self n) h

theorem zeroPadNat_length {w n : ℕ} (hw : 0 < w) (h : n < 10 ^ w) :
    (zeroPadNat w n).length = w := by
  have hd : (natDigits n).length ≤ w := by
    have := natDigits_length_le n (w - 1) (by
      have : w - 1 + 1 = w := by omega
      rw [this]; exact h)
    omega
  rw [zeroPadNat, strLen_mk, List.length_append, List.length_replicate]
  omega

theorem picfilename_length {radio_id : String} {seq_num : ℕ}
    (hrid : radio_id.length = 5) (hn : seq_num < 1000000) :
    (picfilename radio_id seq_num).length = 16 := by
  have h6 : (zeroPadNat 6 seq_num).length = 6 :=
    zeroPadNat_length (by omega) (by norm_num; omega)
  rw [picfilename, strLen_append, strLen_append, strLen_append,
    strTake_length, h6, hrid]
  rfl

theorem emit_eq_ok {α : Type} {s : List ℕ} {x : Except PyErr (List ℕ)}
    {k : List ℕ → List ℕ × Except PyErr α} {rec : List ℕ} {meta : α}
    (h : emit s x k = (rec, Except.ok meta)) :
    ∃ b, x = .ok b ∧ k (s ++ b) = (rec, Except.ok meta) := by
  cases x with
  | error e =>
    unfold emit at h
    injection h with h1 h2
    exact Except.noConfusion h2
  | ok b => exact ⟨b, rfl, h⟩

theorem fetch_eq_ok {α β : Type} {s : List ℕ} {x : Except PyErr β}
    {k : β → List ℕ × Except PyErr α} {rec : List ℕ} {meta : α}
    (h : fetch s x k = (rec, Except.ok meta)) :
    ∃ v, x = .ok v ∧ k v = (rec, Except.ok meta) := by
  cases x with
  | error e =>
    unfold fetch at h
    injection h with h1 h2
    exact Except.noConfusion h2
  | ok v => exact ⟨v, rfl, h⟩

theorem emit_eq_ioError {α : Type} {s : List ℕ} {x : Except PyErr (List ℕ)}
    {k : List ℕ → List ℕ × Except PyErr α} {w : List ℕ}
    (h : emit s x k = (w, Except.error PyErr.ioError)) :
    (x = .error .ioError ∧ w = s) ∨
      ∃ b, x = .ok b ∧ k (s ++ b) = (w, Except.error PyErr.ioError) := by
  cases x with
  | error e =>
    unfold emit at h
    injection h with h1 h2
    injection h2 with h3
    subst h3
    exact Or.inl ⟨rfl, h1.symm⟩
  | ok b => exact Or.inr ⟨b, rfl, h⟩

theorem fetch_eq_ioError {α β : Type} {s : List ℕ} {x : Except PyErr β}
    {k : β → List ℕ × Except PyErr α} {w : List ℕ}
    (h : fetch s x k = (w, Except.error PyErr.ioError)) :
    (x = .error .ioError ∧ w = s) ∨
      ∃ v, x = .ok v ∧ k v = (w, Except.error PyErr.ioError) := by
  cases x with
  | error e =>
    unfold fetch at h
    injection h with h1 h2
    injection h2 with h3
    subst h3
    exact Or.inl ⟨rfl, h1.symm⟩
  | ok v => exact Or.inr ⟨v, rfl, h⟩

theorem asciiBytes_ne_ioError (s : String) :
    asciiBytes s ≠ Except.error PyErr.ioError := by
  unfold asciiBytes
  split
  · exact fun h => Except.noConfusion h
  · intro h
    injection h with h'
    exact PyErr.noConfusion h'

theorem toBytesBE_ne_ioError (k n : ℕ) :
    toBytesBE k n ≠ Except.error PyErr.ioError := by
  unfold toBytesBE
  split
  · exact fun h => Except.noConfusion h
  · intro h
    injection h with h'
    exact PyErr.noConfusion h'

theorem get_date_taken_ne_ioError (exif : Option ExifData) (now : DateTime) :
    get_date_taken exif now ≠ Except.error PyErr.ioError := by
  intro h
  unfold get_date_taken at h
  split at h
  · exact Except.noConfusion h
  · split at h
    · exact Except.noConfusion h
    · split at h
      · exact Except.noConfusion h
      · injection h with h'
        exact PyErr.noConfusion h'

/-- `Image.open` failing means nothing at all was written: the exception
is raised before the first stream write. -/
theorem write_log_open_error {env : String → Except PyErr PhotoInput}
    {picfile cs rid : String} {n : ℕ} {text : Option String}
    {colour : String} {t1 t2 t3 : DateTime} {e : PyErr}
    (h : env picfile = Except.error e) :
    write_log env picfile cs rid n text colour t1 t2 t3 = ([], .error e) := by
  unfold write_log
  rw [h]
  rfl

/-- A successful `write_log` with a 5-character radio id, a callsign of
at most 16 characters, a sequence number below 10^6 and a 20-character
GPS field appends exactly 128 bytes. -/
theorem write_log_ok_length
    {env : String → Except PyErr PhotoInput} {picfile call_sign radio_id : String}
    {picnum : ℕ} {text : Option String} {colour : String} {t1 t2 t3 : DateTime}
    {pic : PhotoInput} {rec : List ℕ} {meta : LogMeta}
    (hpic : env picfile = .ok pic)
    (h : write_log env picfile call_sign radio_id picnum text colour t1 t2 t3
        = (rec, .ok meta))
    (hrid : radio_id.length = 5) (hcs : call_sign.length ≤ 16)
    (hn : picnum < 1000000) (hgps : (encodegps pic.exif).length = 20) :
    rec.length = 128 := by
  unfold write_log at h
  obtain ⟨pic', hpic', h⟩ := fetch_eq_ok h
  rw [hpic] at hpic'
  injection hpic' with hpe
  subst hpe
  obtain ⟨dest, hdest, h⟩ := emit_eq_ok h
  obtain ⟨sp6, hsp6, h⟩ := emit_eq_ok h
  obtain ⟨rid, hrid2, h⟩ := emit_eq_ok h
  obtain ⟨cs, hcs2, h⟩ := emit_eq_ok h
  obtain ⟨taken, _, h⟩ := fetch_eq_ok h
  obtain ⟨desc, hdesc, h⟩ := emit_eq_ok h
  obtain ⟨sp5, hsp5, h⟩ := emit_eq_ok h
  obtain ⟨size, _, h⟩ := fetch_eq_ok h
  obtain ⟨szb, hszb, h⟩ := emit_eq_ok h
  obtain ⟨fname, hfname, h⟩ := emit_eq_ok h
  obtain ⟨gps, hgps2, h⟩ := emit_eq_ok h
  obtain ⟨sp8, hsp8, h⟩ := emit_eq_ok h
  injection h with h1 h2
  rw [← h1]
  have e1 : dest.length = 10 := by rw [asciiBytes_ok_length hdest]; rfl
  have e2 : sp6.length = 6 := by rw [asciiBytes_ok_length hsp6]; rfl
  have e3 : rid.length = 5 := by rw [asciiBytes_ok_length hrid2, hrid]
  have e4 : cs.length = 16 := by
    rw [asciiBytes_ok_length hcs2, ljust_length]
    omega
  have e5 : desc.length = 11 := by
    rw [asciiBytes_ok_length hdesc, fmtFixed_length]
  have e6 : sp5.length = 5 := by rw [asciiBytes_ok_length hsp5]; rfl
  have e7 : szb.length = 4 := toBytesBE_ok_length hszb
  have e8 : fname.length = 16 := by
    rw [asciiBytes_ok_length hfname, picfilename_length hrid hn]
  have e9 : gps.length = 20 := by rw [asciiBytes_ok_length hgps2, hgps]
  have e10 : sp8.length = 8 := by rw [asciiBytes_ok_length hsp8]; rfl
  simp only [List.length_append, writedate_length, List.length_cons,
    List.length_nil]
  omega

/-- A `write_log` call whose caught `IOError` comes from `Image.open`
(i.e. whose rendering step never raises `IOError`) leaves nothing in the
stream: every other `IOError`-free fallible step raises a different
exception kind. -/
theorem write_log_io_partial {env : String → Except PyErr PhotoInput}
    {picfile cs rid : String} {n : ℕ} {text : Option String}
    {colour : String} {t1 t2 t3 : DateTime} {w : List ℕ}
    (h : write_log env picfile cs rid n text colour t1 t2 t3
        = (w, .error .ioError))
    (hrender : ∀ pic, env picfile = .ok pic →
      pic.render ≠ Except.error PyErr.ioError) :
    w = [] := by
  unfold write_log at h
  rcases fetch_eq_ioError h with ⟨_, hw⟩ | ⟨pic, hpic, h⟩
  · exact hw
  rcases emit_eq_ioError h with ⟨hio, _⟩ | ⟨_, _, h⟩
  · exact absurd hio (asciiBytes_ne_ioError _)
  rcases emit_eq_ioError h with ⟨hio, _⟩ | ⟨_, _, h⟩
  · exact absurd hio (asciiBytes_ne_ioError _)
  rcases emit_eq_ioError h with ⟨hio, _⟩ | ⟨_, _, h⟩
  · exact absurd hio (asciiBytes_ne_ioError _)
  rcases emit_eq_ioError h with ⟨hio, _⟩ | ⟨_, _, h⟩
  · exact absurd hio (asciiBytes_ne_ioError _)
  rcases fetch_eq_ioError h with ⟨hio, _⟩ | ⟨_, _, h⟩
  · exact absurd hio (get_date_taken_ne_ioError _ _)
  rcases emit_eq_ioError h with ⟨hio, _⟩ | ⟨_, _, h⟩
  · exact absurd hio (asciiBytes_ne_ioError _)
  rcases emit_eq_ioError h with ⟨hio, _⟩ | ⟨_, _, h⟩
  · exact absurd hio (asciiBytes_ne_ioError _)
  rcases fetch_eq_ioError h with ⟨hio, _⟩ | ⟨_, _, h⟩
  · exact absurd hio (hrender pic hpic)
  rcases emit_eq_ioError h with ⟨hio, _⟩ | ⟨_, _, h⟩
  · exact absurd hio (toBytesBE_ne_ioError _ _)
  rcases emit_eq_ioError h with ⟨hio, _⟩ | ⟨_, _, h⟩
  · exact absurd hio (asciiBytes_ne_ioError _)
  rcases emit_eq_ioError h with ⟨hio, _⟩ | ⟨_, _, h⟩
  · exact absurd hio (asciiBytes_ne_ioError _)
  rcases emit_eq_ioError h with ⟨hio, _⟩ | ⟨_, _, h⟩
  · exact absurd hio (asciiBytes_ne_ioError _)
  injection h with h1 h2
  exact Except.noConfusion h2

theorem fatList_length (n : ℕ) : (fatList n).length = 4 * n := by
  induction n with
  | zero => rfl
  | succ n ih =>
    rw [fatList, List.length_append, ih, List.length_cons, natToBEList_length]
    omega

theorem write_fat_ok : ∀ {n : ℕ} {l : List ℕ}, write_fat n = .ok l → l = fatList n := by
  intro n
  induction n with
  | zero =>
    intro l h
    unfold write_fat at h
    injection h with h'
    exact h'.symm
  | succ n ih =>
    intro l h
    unfold write_fat at h
    rw [exceptBind_eq_ok] at h
    obtain ⟨pre, hpre, h⟩ := h
    rw [exceptBind_eq_ok] at h
    obtain ⟨addr, haddr, h⟩ := h
    injection h with h'
    rw [← h', ih hpre, (toBytesBE_ok haddr).1, fatList]

theorem fatList_entry : ∀ {n i : ℕ}, i < n →
    ((fatList n).drop (4 * i)).take 4 = 0x40 :: natToBEList 3 (0x80 * i) := by
  intro n
  induction n with
  | zero => omega
  | succ n ih =>
    intro i h
    rw [fatList]
    rcases Nat.lt_succ_iff_lt_or_eq.mp h with h' | h'
    · rw [List.drop_append_of_le_length (by rw [fatList_length]; omega),
        List.take_append_of_le_length (by rw [List.length_drop, fatList_length]; omega)]
      exact ih h'
    · subst h'
      rw [show 4 * i = (fatList i).length from (fatList_length i).symm,
        List.drop_left]
      rfl

theorem write_mng_ok {n : ℕ} {l : List ℕ} (h : write_mng 0 n 0 = .ok l) :
    l = natToBEList 2 0 ++ List.replicate 14 0xff ++ natToBEList 2 n ++
        natToBEList 2 0 ++ List.replicate 12 0xff ∧ n < 65536 := by
  unfold write_mng at h
  rw [exceptBind_eq_ok] at h
  obtain ⟨m, hm, h⟩ := h
  rw [exceptBind_eq_ok] at h
  obtain ⟨p, hp, h⟩ := h
  rw [exceptBind_eq_ok] at h
  obtain ⟨g, hg, h⟩ := h
  injection h with h'
  constructor
  · rw [← h', (toBytesBE_ok hm).1, (toBytesBE_ok hp).1, (toBytesBE_ok hg).1]
  · have := (toBytesBE_ok hp).2
    norm_num at this
    exact this

theorem write_log_ok_env {env : String → Except PyErr PhotoInput}
    {picfile cs rid : String} {n : ℕ} {text : Option String} {colour : String}
    {t1 t2 t3 : DateTime} {w : List ℕ} {meta : LogMeta}
    (h : write_log env picfile cs rid n text colour t1 t2 t3
        = (w, .ok meta)) :
    ∃ pic, env picfile = .ok pic := by
  unfold write_log at h
  obtain ⟨pic, hpic, _⟩ := fetch_eq_ok h
  exact ⟨pic, hpic⟩

theorem dirLoop_caught {env : String → Except PyErr PhotoInput}
    {cs rid : String} {text : Option String} {colour : String}
    {t1 t2 t3 : DateTime} {f : String} {rest : List String} {bs : List ℕ}
    {cnt : ℕ} {w : List ℕ}
    (h : write_log env f cs rid (cnt + 1) text colour t1 t2 t3
        = (w, .error .ioError)) :
    dirLoop env cs rid text colour t1 t2 t3 (f :: rest) bs cnt
      = dirLoop env cs rid text colour t1 t2 t3 rest (bs ++ w) cnt := by
  have hstep : dirLoop env cs rid text colour t1 t2 t3 (f :: rest) bs cnt =
      match write_log env f cs rid (cnt + 1) text colour t1 t2 t3 with
      | (w, .ok _) => dirLoop env cs rid text colour t1 t2 t3 rest
          (bs ++ w) (cnt + 1)
      | (w, .error .ioError) => dirLoop env cs rid text colour t1 t2 t3 rest
          (bs ++ w) cnt
      | (_, .error e) => .error e := rfl
  simp only [hstep, h]

theorem dirLoop_success {env : String → Except PyErr PhotoInput}
    {cs rid : String} {text : Option String} {colour : String}
    {t1 t2 t3 : DateTime} {f : String} {rest : List String} {bs : List ℕ}
    {cnt : ℕ} {w : List ℕ} {meta : LogMeta}
    (h : write_log env f cs rid (cnt + 1) text colour t1 t2 t3
        = (w, .ok meta)) :
    dirLoop env cs rid text colour t1 t2 t3 (f :: rest) bs cnt
      = dirLoop env cs rid text colour t1 t2 t3 rest (bs ++ w)
          (cnt + 1) := by
  have hstep : dirLoop env cs rid text colour t1 t2 t3 (f :: rest) bs cnt =
      match write_log env f cs rid (cnt + 1) text colour t1 t2 t3 with
      | (w, .ok _) => dirLoop env cs rid text colour t1 t2 t3 rest
          (bs ++ w) (cnt + 1)
      | (w, .error .ioError) => dirLoop env cs rid text colour t1 t2 t3 rest
          (bs ++ w) cnt
      | (_, .error e) => .error e := rfl
  simp only [hstep, h]

theorem dirLoop_ok_length {env : String → Except PyErr PhotoInput}
    {cs rid : String} {text : Option String} {colour : String}
    {t1 t2 t3 : DateTime}
    (hrid : rid.length = 5) (hcs : cs.length ≤ 16)
    (hgpsall : ∀ f pic, env f = .ok pic → (encodegps pic.exif).length = 20)
    (hrender : ∀ f pic, env f = .ok pic →
      pic.render ≠ Except.error PyErr.ioError) :
    ∀ (files : List String) (bs : List ℕ) (cnt : ℕ) (bs' : List ℕ) (cnt' : ℕ),
      cnt + files.length < 1000000 →
      dirLoop env cs rid text colour t1 t2 t3 files bs cnt = .ok (bs', cnt') →
      bs'.length = bs.length + 128 * (cnt' - cnt) ∧ cnt ≤ cnt' ∧
        cnt' ≤ cnt + files.length := by
  intro files
  induction files with
  | nil =>
    intro bs cnt bs' cnt' hb h
    unfold dirLoop at h
    injection h with h'
    injection h' with hbs hcnt
    subst hbs; subst hcnt
    simp
  | cons f rest ih =>
    intro bs cnt bs' cnt' hb h
    unfold dirLoop at h
    split at h
    · rename_i w meta hw
      have ⟨pic, hpic⟩ := write_log_ok_env hw
      have hrec : w.length = 128 :=
        write_log_ok_length hpic hw hrid hcs (by simp at hb; omega)
          (hgpsall f pic hpic)
      have := ih (bs ++ w) (cnt + 1) bs' cnt' (by simp at hb ⊢; omega) h
      rw [List.length_append, hrec] at this
      simp only [List.length_cons]
      omega
    · rename_i w hw
      have hw0 : w = [] := write_log_io_partial hw (fun pic hp => hrender f pic hp)
      subst hw0
      rw [List.append_nil] at h
      have := ih bs cnt bs' cnt' (by simp at hb ⊢; omega) h
      simp only [List.length_cons]
      omega
    · exact Except.noConfusion h

theorem writeOutputs_ok_some {stream : List ℕ} {n : ℕ} {files : OutFiles}
    (h : writeOutputs stream n = .ok (some files)) :
    0 < n ∧ files.dirF = stream ∧ files.fatF = fatList n ∧
      files.mngF = natToBEList 2 0 ++ List.replicate 14 0xff ++
        natToBEList 2 n ++ natToBEList 2 0 ++ List.replicate 12 0xff ∧
      n < 65536 := by
  unfold writeOutputs at h
  split at h
  · rw [exceptBind_eq_ok] at h
    obtain ⟨fat, hfat, h⟩ := h
    rw [exceptBind_eq_ok] at h
    obtain ⟨mng, hmng, h⟩ := h
    injection h with h'
    injection h' with h''
    obtain ⟨hm, hn⟩ := write_mng_ok hmng
    refine ⟨by assumption, ?_, ?_, ?_, hn⟩
    · rw [← h'']
    · rw [← h'', write_fat_ok hfat]
    · rw [← h'', hm]
  · injection h with h'
    exact Option.noConfusion h'

/-! ### Claim theorems -/

theorem write_log_painted {env : String → Except PyErr PhotoInput}
    {picfile cs rid : String} {n : ℕ} {colour : String} {t1 t2 t3 : DateTime}
    {w : List ℕ} {meta : LogMeta}
    (h : write_log env picfile cs rid n none colour t1 t2 t3
        = (w, .ok meta)) :
    meta.painted = false := by
  unfold write_log at h
  obtain ⟨pic, _, h⟩ := fetch_eq_ok h
  obtain ⟨dest, _, h⟩ := emit_eq_ok h
  obtain ⟨sp6, _, h⟩ := emit_eq_ok h
  obtain ⟨rid2, _, h⟩ := emit_eq_ok h
  obtain ⟨cs2, _, h⟩ := emit_eq_ok h
  obtain ⟨taken, _, h⟩ := fetch_eq_ok h
  obtain ⟨desc, _, h⟩ := emit_eq_ok h
  obtain ⟨sp5, _, h⟩ := emit_eq_ok h
  obtain ⟨size, _, h⟩ := fetch_eq_ok h
  obtain ⟨szb, _, h⟩ := emit_eq_ok h
  obtain ⟨fname, _, h⟩ := emit_eq_ok h
  obtain ⟨gps, _, h⟩ := emit_eq_ok h
  obtain ⟨sp8, _, h⟩ := emit_eq_ok h
  injection h with h1 h2
  injection h2 with h3
  rw [← h3]
  rfl

/-- C1 (amended): whenever `write_log` succeeds, the record it appends to
the stream is exactly 128 bytes — provided the radio id is exactly 5
characters, the callsign at most 16 characters, the sequence number below
10^6, and the GPS field encodes to 20 characters.  The claim as stated —
for *every* callsign and radio id — fails, because the radio id is
written verbatim (neither padded nor truncated) and a 6-character radio
id yields a 129-byte record. -/
theorem C1_record_always_128 {env : String → Except PyErr PhotoInput}
    {picfile call_sign radio_id : String} {picnum : ℕ} {text : Option String}
    {colour : String} {t1 t2 t3 : DateTime} {pic : PhotoInput}
    {rec : List ℕ} {meta : LogMeta}
    (hpic : env picfile = .ok pic)
    (h : write_log env picfile call_sign radio_id picnum text colour t1 t2 t3
        = (rec, .ok meta))
    (hrid : radio_id.length = 5) (hcs : call_sign.length ≤ 16)
    (hn : picnum < 1000000) (hgps : (encodegps pic.exif).length = 20) :
    rec.length = 128 :=
  write_log_ok_length hpic h hrid hcs hn hgps

/-- C1 counterexample: a successful `write_log` call with the 6-character
radio id "123456" appends a 129-byte record, so the record is not always
128 bytes and subsequent 128-offset addressing is corrupted. -/
theorem C1_cex :
    (write_log sampleEnv "a.jpg" "CALL" "123456" 1 none "red"
        sampleDate sampleDate sampleDate).2.toOption.isSome = true
    ∧ (write_log sampleEnv "a.jpg" "CALL" "123456" 1 none "red"
        sampleDate sampleDate sampleDate).1.length = 129
    ∧ (129 : ℕ) ≠ 128 :=
  ⟨rfl, rfl, by decide⟩

/-- C1 witness: a concrete well-formed invocation (5-character radio id,
short callsign) completes and yields a 128-byte record, by the amended
theorem. -/
theorem C1_wit :
    (write_log sampleEnv "a.jpg" "CALL" "12345" 1 none "red"
        sampleDate sampleDate sampleDate).2.toOption.isSome = true
    ∧ (write_log sampleEnv "a.jpg" "CALL" "12345" 1 none "red"
        sampleDate sampleDate sampleDate).1.length = 128 := by
  obtain ⟨rec, meta, hw⟩ : ∃ rec meta,
      write_log sampleEnv "a.jpg" "CALL" "12345" 1 none "red" sampleDate
        sampleDate sampleDate = (rec, Except.ok meta) := ⟨_, _, rfl⟩
  have h128 : rec.length = 128 :=
    C1_record_always_128 (show sampleEnv "a.jpg" = Except.ok samplePhoto
        from rfl) hw (by decide) (by decide) (by decide) (by decide)
  rw [hw]
  exact ⟨rfl, h128⟩

theorem encodegps_spec_example :
    encodegps exifSpecExample = "N040264630W079585510" := by
  show encCoord "N" 40 26 ((463 : ℚ)/10) ++ encCoord "W" 79 58 ((551 : ℚ)/10) = _
  simp only [encCoord]
  rw [show (100 * ((463 : ℚ)/10)) = (4630 : ℚ) from by norm_num,
      show (100 * ((551 : ℚ)/10)) = (5510 : ℚ) from by norm_num]
  decide

/-- C2 counterexample: on the spec's worked example — latitude
(40, 26, 46.3) "N", longitude (79, 58, 55.1) "W" — `encodegps` does not
return the string "N040261630W079583610" claimed by the spec. -/
theorem C2_cex : encodegps exifSpecExample ≠ "N040261630W079583610" := by
  rw [encodegps_spec_example]
  decide

/-- C2 (amended): on the geotag with latitude (40, 26, 46.3) "N" and
longitude (79, 58, 55.1) "W", `encodegps` returns exactly the
20-character string "N040264630W079585510" — the 1-char hemisphere
letter, 3-digit degrees, 2-digit minutes and 4-digit seconds×100 packing
per coordinate is as claimed, but the seconds digits are 4630 and 5510
(= ⌊100 × seconds⌋), not the 1630/3610 digits of the spec's literal. -/
theorem C2_gps_example :
    encodegps exifSpecExample = "N040264630W079585510"
    ∧ (encodegps exifSpecExample).length = 20 := by
  refine ⟨encodegps_spec_example, ?_⟩
  rw [encodegps_spec_example]
  decide

/-- C3: for every field value 0–99 the BCD byte `dec2hex` produces equals
`(field / 10 % 10) <<< 4 ||| field % 10`; for every value ≥ 100 the
result equals the encoding of the value mod 100; and `writedate` emits
exactly the 6 bytes for (year mod 100, month, day, hour, minute,
second). -/
theorem C3_bcd :
    (∀ v, v < 100 → dec2hex v = ((v / 10) % 10) <<< 4 ||| v % 10)
    ∧ (∀ v, 100 ≤ v → dec2hex v = dec2hex (v % 100))
    ∧ (∀ when : DateTime,
        writedate when =
          [dec2hex (when.year % 100), dec2hex when.month, dec2hex when.day,
           dec2hex when.hour, dec2hex when.minute, dec2hex when.second]
        ∧ (writedate when).length = 6) := by
  refine ⟨by decide, ?_, ?_⟩
  · intro v hv
    have h1 : dec2hex v = v % 100 % 10 + 16 * (v % 100 / 10) := rfl
    have h2 : dec2hex (v % 100) = v % 100 % 100 % 10 + 16 * (v % 100 % 100 / 10) := rfl
    rw [h1, h2]
    omega
  · intro when
    constructor
    · have hy : dec2hex when.year = dec2hex (when.year % 100) := by
        have h1 : dec2hex when.year
            = when.year % 100 % 10 + 16 * (when.year % 100 / 10) := rfl
        have h2 : dec2hex (when.year % 100)
            = when.year % 100 % 100 % 10 + 16 * (when.year % 100 % 100 / 10) := rfl
        rw [h1, h2]
        omega
      rw [writedate, hy]
    · exact writedate_length when

/-- C3 witness: 23 encodes to 0x23 (= 2 <<< 4 ||| 3), 107 encodes like 7,
and the sample timestamp 2020-05-17 10:30:00 yields the BCD bytes
20 05 17 10 30 00. -/
theorem C3_wit :
    dec2hex 23 = (2 <<< 4 ||| 3) ∧ dec2hex 107 = dec2hex 7 ∧
      writedate sampleDate = [0x20, 0x05, 0x17, 0x10, 0x30, 0x00] := by
  refine ⟨?_, ?_, ?_⟩
  · exact (C3_bcd.1 23 (by decide)).trans (by decide)
  · exact (C3_bcd.2.1 107 (by decide)).trans (by decide)
  · exact ((C3_bcd.2.2 sampleDate).1).trans (by decide)

/-- C4 (amended): for every batch outcome of N ≥ 1 records that are each
128 bytes (the well-formed-parameter condition of C1), the written
`QSOPCTDIR.DAT` is exactly 128·N bytes, `QSOPCTFAT.DAT` is exactly 4·N
bytes, and the i-th FAT entry is the marker byte 0x40 followed by the
3-byte big-endian offset 0x80·i (the successful write presupposes the
offsets fit, i.e. N ≤ 2^17).  The claim over *every* batch run fails
because records are not always 128 bytes. -/
theorem C4_dir_fat_layout :
    ∀ (recs : List (List ℕ)) (N : ℕ) (out : OutFiles),
      N = recs.length → 1 ≤ N → (∀ b ∈ recs, b.length = 128) →
      writeOutputs recs.flatten N = .ok (some out) →
      out.dirF.length = 128 * N ∧ out.fatF.length = 4 * N ∧
        ∀ i, i < N →
          (out.fatF.drop (4 * i)).take 4 = 0x40 :: natToBEList 3 (0x80 * i) := by
  intro recs N out hN h1 hall h
  obtain ⟨hpos, hdir, hfat, hmng, hlt⟩ := writeOutputs_ok_some h
  refine ⟨?_, ?_, ?_⟩
  · rw [hdir, List.length_flatten]
    have hrep : recs.map List.length = List.replicate N 128 := by
      rw [List.eq_replicate_iff]
      refine ⟨by rw [List.length_map, hN], ?_⟩
      intro b hb
      obtain ⟨a, ha, hab⟩ := List.mem_map.mp hb
      rw [← hab]
      exact hall a ha
    rw [hrep, List.sum_replicate, smul_eq_mul, Nat.mul_comm]
  · rw [hfat, fatList_length]
  · intro i hi
    rw [hfat]
    exact fatList_entry hi

/-- C4 counterexample: a run of `ysfMain` that successfully processes
N = 1 photo with radio id "123456" writes a `QSOPCTDIR.DAT` of 129 bytes,
not 128·1. -/
theorem C4_cex :
    (ysfMain "CALL" "123456" "out" (some "a.jpg") emptyListdir sampleEnv
        sampleDate sampleDate sampleDate).map
        (fun res => (res.picCount, res.files.map (fun o => o.dirF.length)))
      = Except.ok (1, some 129) ∧ (129 : ℕ) ≠ 128 * 1 :=
  ⟨rfl, by decide⟩

/-- C4 witness: one 128-byte record yields a 128-byte `QSOPCTDIR.DAT`, a
4-byte `QSOPCTFAT.DAT`, whose single entry is 0x40 followed by the
3-byte big-endian offset 0. -/
theorem C4_wit :
    (writeOutputs ([List.replicate 128 (0 : ℕ)].flatten) 1).map
        (fun o => o.map (fun f => (f.dirF.length, f.fatF.length, f.fatF.take 4)))
      = Except.ok (some (128, 4, 0x40 :: natToBEList 3 0)) := by
  obtain ⟨f, hf⟩ : ∃ f, writeOutputs ([List.replicate 128 (0 : ℕ)].flatten) 1
      = Except.ok (some f) := ⟨_, rfl⟩
  have h := C4_dir_fat_layout [List.replicate 128 0] 1 f rfl (by decide)
    (by intro b hb; simp at hb; subst hb; simp) hf
  have hentry := h.2.2 0 (by decide)
  simp only [Nat.mul_zero, List.drop_zero] at hentry
  rw [hf]
  simp [Except.map, h.1, h.2.1, hentry]

/-- C5 (amended): `picfilename` is "H", then the radio id *truncated* to
at most its first 5 characters (it is never space-padded), then the
sequence number zero-padded to at least 6 digits, then ".jpg"; the
result is 16 characters exactly when the radio id has at least 5
characters and the sequence number is below 10^6, and only
11 + (radio id length) characters for shorter radio ids.  Radio id
"12345" with sequence 3 yields "H12345000003.jpg" as claimed. -/
theorem C5_picfilename :
    picfilename "12345" 3 = "H12345000003.jpg"
    ∧ (∀ rid n, 5 ≤ rid.length → n < 1000000 → (picfilename rid n).length = 16)
    ∧ (∀ rid n, rid.length < 5 → n < 1000000 →
        (picfilename rid n).length = 11 + rid.length) := by
  refine ⟨by decide, ?_, ?_⟩
  · intro rid n h5 hn
    have h6 : (zeroPadNat 6 n).length = 6 :=
      zeroPadNat_length (by omega) (by norm_num; omega)
    rw [picfilename, strLen_append, strLen_append, strLen_append,
      strTake_length, h6, show ("H" : String).length = 1 from rfl,
      show (".jpg" : String).length = 4 from rfl]
    omega
  · intro rid n h5 hn
    have h6 : (zeroPadNat 6 n).length = 6 :=
      zeroPadNat_length (by omega) (by norm_num; omega)
    rw [picfilename, strLen_append, strLen_append, strLen_append,
      strTake_length, h6, show ("H" : String).length = 1 from rfl,
      show (".jpg" : String).length = 4 from rfl]
    omega

/-- C5 counterexample: for radio id "AB" and sequence 1 the generated
name is "HAB000001.jpg" — 13 characters, not the claimed space-padded
16-character form. -/
theorem C5_cex :
    picfilename "AB" 1 = "HAB000001.jpg" ∧ (picfilename "AB" 1).length ≠ 16 :=
  ⟨by decide, by decide⟩

/-- C5 witness: a 7-character radio id with sequence 42 yields a
16-character filename, by the amended theorem. -/
theorem C5_wit : (picfilename "1234567" 42).length = 16 :=
  C5_picfilename.2.1 "1234567" 42 (by decide) (by decide)

/-- C6: `encodegps` returns exactly 20 ASCII spaces — and, being a total
function of the decoded metadata, never raises — when the metadata is
absent entirely, when it has no `GPSInfo` tag, and when the GPS
dictionary is missing any of the four values (either hemisphere
reference, latitude, or longitude). -/
theorem C6_gps_fallback :
    encodegps none = blank_gps
    ∧ (∀ e : ExifData, e.gps = none → encodegps (some e) = blank_gps)
    ∧ (∀ (e : ExifData) (g : GpsInfo), e.gps = some g →
        g.latRef = none ∨ g.lat = none ∨ g.lonRef = none ∨ g.lon = none →
        encodegps (some e) = blank_gps)
    ∧ blank_gps = spacesStr 20 := by
  refine ⟨rfl, ?_, ?_, by decide⟩
  · intro e he
    simp [encodegps, get_geotagging, he]
  · intro e g hg hmiss
    obtain ⟨lr, la, lor, lo⟩ := g
    cases lr <;> cases la <;> cases lor <;> cases lo <;>
      simp_all [encodegps, get_geotagging]
  
/-- C6 witness: a geotag whose `GPSLatitudeRef` is missing encodes to the
blank 20-space GPS field, by the theorem. -/
theorem C6_wit :
    encodegps (some ⟨some gpsMissingRef, none⟩) = blank_gps :=
  C6_gps_fallback.2.2.1 ⟨some gpsMissingRef, none⟩ gpsMissingRef rfl
    (Or.inl rfl)

theorem mng_photo_slice (K : ℕ) :
    ((natToBEList 2 0 ++ List.replicate 14 0xff ++ natToBEList 2 K ++
        natToBEList 2 0 ++ List.replicate 12 (0xff : ℕ)).drop 16).take 2
      = natToBEList 2 K := by
  have hdrop : (natToBEList 2 0 ++ List.replicate 14 0xff ++ natToBEList 2 K ++
      natToBEList 2 0 ++ List.replicate 12 (0xff : ℕ)).drop 16
      = natToBEList 2 K ++ natToBEList 2 0 ++ List.replicate 12 0xff := rfl
  rw [hdrop, List.take_append_of_le_length
      (by rw [List.length_append, natToBEList_length]; omega),
    List.take_append_of_le_length (by rw [natToBEList_length]),
    List.take_of_length_le (by rw [natToBEList_length])]

/-- C7 (amended): in the directory loop a photo failing with a caught
`IOError` is skipped, the loop continues with the next file, and the
failure consumes no sequence number.  When the `IOError` comes from
opening the photo (`Image.open`, the unreadable-file case), nothing of
that photo enters the stream, and for a whole directory batch with
well-formed parameters (5-character radio id, callsign ≤ 16 characters,
20-character GPS fields, fewer than 10^6 files) whose rendering steps
never raise `IOError`, `QSOPCTDIR.DAT` is exactly 128·K bytes for the K
successful photos, the FAT is 4·K bytes, and the summary's photo-count
field holds K.  But an `IOError` caught *after* record assembly has
begun (`os.makedirs`/`shrink_image`/`os.path.getsize`, lines 231–237)
leaves the partial record's bytes in the shared stream — the caught-
error equation keeps them — so the claim's "exactly one well-formed
128-byte record per successful photo" also fails for such render
failures, not only for ill-sized radio ids. -/
theorem C7_batch_error_handling :
    (∀ env cs rid (text : Option String) (colour : String) t1 t2 t3 f
        (rest : List String) (bs : List ℕ) (cnt : ℕ),
      env f = .error .ioError →
      dirLoop env cs rid text colour t1 t2 t3 (f :: rest) bs cnt
        = dirLoop env cs rid text colour t1 t2 t3 rest bs cnt)
    ∧ (∀ env cs rid (text : Option String) (colour : String) t1 t2 t3 f
        (rest : List String) (bs : List ℕ) (cnt : ℕ) (w : List ℕ),
      write_log env f cs rid (cnt + 1) text colour t1 t2 t3
          = (w, .error .ioError) →
      dirLoop env cs rid text colour t1 t2 t3 (f :: rest) bs cnt
        = dirLoop env cs rid text colour t1 t2 t3 rest (bs ++ w) cnt)
    ∧ (∀ env cs rid (text : Option String) (colour : String) t1 t2 t3 f
        (rest : List String) (bs : List ℕ) (cnt : ℕ) (w : List ℕ)
        (meta : LogMeta),
      write_log env f cs rid (cnt + 1) text colour t1 t2 t3
          = (w, .ok meta) →
      dirLoop env cs rid text colour t1 t2 t3 (f :: rest) bs cnt
        = dirLoop env cs rid text colour t1 t2 t3 rest (bs ++ w) (cnt + 1))
    ∧ (∀ env cs (rid : String) (text : Option String) (colour : String)
        t1 t2 t3 (files : List String) (out : OutFiles) (K : ℕ),
      rid.length = 5 → cs.length ≤ 16 →
      (∀ f pic, env f = .ok pic → (encodegps pic.exif).length = 20) →
      (∀ f pic, env f = .ok pic →
        pic.render ≠ Except.error PyErr.ioError) →
      files.length < 1000000 →
      dirBatch env cs rid text colour t1 t2 t3 files = .ok (some out, K) →
      out.dirF.length = 128 * K ∧ out.fatF.length = 4 * K ∧
        (out.mngF.drop 16).take 2 = natToBEList 2 K ∧ K ≤ files.length) := by
  refine ⟨?_, ?_, ?_, ?_⟩
  · intro env cs rid text colour t1 t2 t3 f rest bs cnt h
    rw [dirLoop_caught (write_log_open_error h), List.append_nil]
  · intro env cs rid text colour t1 t2 t3 f rest bs cnt w h
    exact dirLoop_caught h
  · intro env cs rid text colour t1 t2 t3 f rest bs cnt w meta h
    exact dirLoop_success h
  · intro env cs rid text colour t1 t2 t3 files out K hrid hcs hgps hrend
      hflen h
    unfold dirBatch at h
    rw [exceptBind_eq_ok] at h
    obtain ⟨st, hst, h⟩ := h
    obtain ⟨bs', cnt'⟩ := st
    rw [exceptBind_eq_ok] at h
    obtain ⟨outs, houts, h⟩ := h
    injection h with h'
    injection h' with ho hk
    subst ho
    subst hk
    dsimp only at houts
    have hloop := dirLoop_ok_length hrid hcs hgps hrend files [] 0 bs' cnt'
      (by simpa) hst
    obtain ⟨hpos, hdir, hfat, hmng, hlt⟩ := writeOutputs_ok_some houts
    refine ⟨?_, ?_, ?_, ?_⟩
    · rw [hdir]
      have := hloop.1
      simp at this
      omega
    · rw [hfat, fatList_length]
    · rw [hmng]
      exact mng_photo_slice cnt'
    · omega

set_option maxRecDepth 8000

/-- C7 counterexample: in a three-file batch with the well-formed radio
id "12345" whose middle file opens but fails with `IOError` while its
thumbnail is rendered and saved, the bad file is skipped and 2 successes
are counted — yet the resulting `QSOPCTDIR.DAT` is 336 bytes, not 128·2:
the 80 bytes of the aborted record written before the failure remain in
the stream between the two good records. -/
theorem C7_cex :
    (dirBatch renderFailEnv "CALL" "12345" none "red" sampleDate sampleDate
        sampleDate ["a.jpg", "b.jpg", "c.jpg"]).map
        (fun p => (p.1.map (fun o => o.dirF.length), p.2))
      = Except.ok (some 336, 2) ∧ (336 : ℕ) ≠ 128 * 2 :=
  ⟨rfl, by decide⟩

/-- C7 witness: a three-file batch with radio id "12345" whose middle
file is unreadable (`Image.open` raises `IOError`, so nothing of it is
written) produces exactly 2 records totalling 256 bytes, an 8-byte FAT,
and a summary photo count of 2 — 2 of 3, as the spec's example
requires. -/
theorem C7_wit :
    (dirBatch skipEnv "CALL" "12345" none "red" sampleDate sampleDate
        sampleDate ["a.jpg", "b.jpg", "c.jpg"]).map
        (fun p => (p.1.map (fun o =>
            (o.dirF.length, o.fatF.length, (o.mngF.drop 16).take 2)), p.2))
      = Except.ok (some (256, 8, natToBEList 2 2), 2) := by
  obtain ⟨out, K, hb⟩ : ∃ out K, dirBatch skipEnv "CALL" "12345" none "red"
      sampleDate sampleDate sampleDate ["a.jpg", "b.jpg", "c.jpg"]
      = .ok (some out, K) := ⟨_, _, rfl⟩
  have hK : K = 2 := by
    have heval : (dirBatch skipEnv "CALL" "12345" none "red" sampleDate
        sampleDate sampleDate ["a.jpg", "b.jpg", "c.jpg"]).map (fun p => p.2)
        = Except.ok 2 := rfl
    rw [hb] at heval
    simp [Except.map] at heval
    exact heval
  subst hK
  have h := C7_batch_error_handling.2.2.2 skipEnv "CALL" "12345" none "red"
    sampleDate sampleDate sampleDate ["a.jpg", "b.jpg", "c.jpg"] out 2
    (by decide) (by decide)
    (by
      intro f pic hf
      unfold skipEnv at hf
      split at hf
      · exact Except.noConfusion hf
      · injection hf with h'
        subst h'
        decide)
    (by
      intro f pic hf
      unfold skipEnv at hf
      split at hf
      · exact Except.noConfusion hf
      · injection hf with h'
        subst h'
        exact fun hc => Except.noConfusion hc)
    (by decide) hb
  rw [hb]
  simp [Except.map, h.1, h.2.1, h.2.2.1]

/-- C8 (amended): every summary file a batch writes is the fixed layout
2-byte big-endian message count 0, 14 bytes of 0xff padding, the 2-byte
big-endian photo count N, the 2-byte big-endian group count 0, and
12 bytes of 0xff padding — message and group counts are always emitted
as 0 — for a total of 32 bytes, not the 24 bytes stated by the claim
(2 + 14 + 2 + 2 + 12 = 32). -/
theorem C8_mng_layout :
    ∀ (stream : List ℕ) (N : ℕ) (files : OutFiles),
      writeOutputs stream N = .ok (some files) →
      files.mngF = natToBEList 2 0 ++ List.replicate 14 0xff ++
          natToBEList 2 N ++ natToBEList 2 0 ++ List.replicate 12 0xff
      ∧ files.mngF.length = 32 := by
  intro stream N files h
  obtain ⟨_, _, _, hmng, hlt⟩ := writeOutputs_ok_some h
  refine ⟨hmng, ?_⟩
  rw [hmng]
  simp [natToBEList_length]

/-- C8 counterexample: the summary record written for one photo is
32 bytes long, not 24. -/
theorem C8_cex :
    (write_mng 0 1 0).map List.length = Except.ok 32 ∧ (32 : ℕ) ≠ 24 :=
  ⟨rfl, by decide⟩

/-- C8 witness: the one-photo run writes the 32-byte summary with message
count 0, photo count 1 and group count 0, by the amended theorem. -/
theorem C8_wit :
    (writeOutputs (List.replicate 128 (0 : ℕ)) 1).map
        (fun o => o.map (fun f => (f.mngF.length, f.mngF)))
      = Except.ok (some (32, natToBEList 2 0 ++ List.replicate 14 0xff ++
          natToBEList 2 1 ++ natToBEList 2 0 ++ List.replicate 12 0xff)) := by
  obtain ⟨f, hf⟩ : ∃ f, writeOutputs (List.replicate 128 (0 : ℕ)) 1
      = Except.ok (some f) := ⟨_, rfl⟩
  have h := C8_mng_layout _ _ _ hf
  rw [hf]
  simp [Except.map, h.1, h.2, natToBEList_length]

/-- C9 (amended): `get_date_taken` returns the embedded capture time when
the tag is present and parseable, and returns the current time — without
raising — when the metadata is absent or the tag is missing (the caught
`KeyError`); but when the tag is present and malformed, `strptime`
raises `ValueError`, which the function does *not* catch, contrary to
the claim that the current time is returned in that case too. -/
theorem C9_date_taken :
    (∀ now, get_date_taken none now = .ok now)
    ∧ (∀ (e : ExifData) now, e.dateTimeOriginal = none →
        get_date_taken (some e) now = .ok now)
    ∧ (∀ (e : ExifData) now s d, e.dateTimeOriginal = some s →
        strptimeYmdHms s = some d → get_date_taken (some e) now = .ok d)
    ∧ (∀ (e : ExifData) now s, e.dateTimeOriginal = some s →
        strptimeYmdHms s = none →
        get_date_taken (some e) now = .error .valueError) := by
  refine ⟨fun now => rfl, ?_, ?_, ?_⟩
  · intro e now h
    simp [get_date_taken, h]
  · intro e now s d hs hp
    simp [get_date_taken, hs, hp]
  · intro e now s hs hp
    simp [get_date_taken, hs, hp]

/-- C9 counterexample: on metadata whose capture-time tag holds the
unparseable string "garbage", `get_date_taken` raises `ValueError`
instead of returning the current time. -/
theorem C9_cex :
    get_date_taken (some exifBadDate) sampleDate = .error .valueError
    ∧ get_date_taken (some exifBadDate) sampleDate ≠ .ok sampleDate := by
  refine ⟨rfl, ?_⟩
  intro h
  rw [show get_date_taken (some exifBadDate) sampleDate
      = .error .valueError from rfl] at h
  exact Except.noConfusion h

/-- C9 witness: a well-formed embedded time "2020:05:17 10:30:00" is
parsed and returned, by the amended theorem. -/
theorem C9_wit :
    get_date_taken (some ⟨none, some "2020:05:17 10:30:00"⟩) sampleDate
      = .ok ⟨2020, 5, 17, 10, 30, 0⟩ :=
  C9_date_taken.2.2.1 ⟨none, some "2020:05:17 10:30:00"⟩ sampleDate
    "2020:05:17 10:30:00" ⟨2020, 5, 17, 10, 30, 0⟩ rfl (by decide)

/-- C10: `ysfMain` is extensionally equal to the single-file-only driver
`singleFileDriver` for all arguments (so the directory-iteration branch,
which `dir_name = None` makes unreachable, never executes); every
successful run paints no overlay text (`text = None`, so `paint_text` is
never reached, with the colour defaulted to "red" inside the drivers);
exactly the one designated file is processed; and every HTTP-API call
(`apiProc`) likewise reduces to the single-file driver. -/
theorem C10_main_single_file :
    ∀ callsign radioid outdir (file_name : Option String)
      (listdir : String → List String) (env : String → Except PyErr PhotoInput)
      t1 t2 t3,
      ysfMain callsign radioid outdir file_name listdir env t1 t2 t3
        = singleFileDriver callsign radioid outdir file_name listdir env
            t1 t2 t3
      ∧ (∀ res,
          ysfMain callsign radioid outdir file_name listdir env t1 t2 t3
            = .ok res →
          res.painted = false
          ∧ res.processed = (match file_name with
              | some f => if f = "" then [] else [f]
              | none => []))
      ∧ (∀ t filename,
          apiProc callsign radioid filename t listdir env t1 t2 t3
            = singleFileDriver callsign radioid ("output" ++ t)
                (some ("images/" ++ filename)) listdir env t1 t2 t3) := by
  intro cs rid outdir fn listdir env t1 t2 t3
  have hEq : ∀ (od : String) (fn' : Option String),
      ysfMain cs rid od fn' listdir env t1 t2 t3
        = singleFileDriver cs rid od fn' listdir env t1 t2 t3 := by
    intro od fn'
    cases fn' with
    | none => rfl
    | some f =>
      by_cases hf : f = ""
      · simp [ysfMain, singleFileDriver, fileStep, dirStep, hf, writeOutputs]
      · cases hw : write_log env f cs rid 1 none "red" t1 t2 t3 with
        | mk w outc =>
          cases outc with
          | error e =>
            simp [ysfMain, singleFileDriver, fileStep, dirStep, hf, hw,
              Option.getD]
          | ok meta =>
            cases ho : writeOutputs w 1 with
            | error e2 =>
              simp [ysfMain, singleFileDriver, fileStep, dirStep, hf, hw, ho,
                Option.getD]
            | ok files =>
              simp [ysfMain, singleFileDriver, fileStep, dirStep, hf, hw, ho,
                Option.getD]
  refine ⟨hEq outdir fn, ?_,
    fun t filename => hEq ("output" ++ t) (some ("images/" ++ filename))⟩
  intro res hres
  rw [hEq outdir fn] at hres
  cases fn with
  | none =>
    rw [show singleFileDriver cs rid outdir none listdir env t1 t2 t3
        = Except.ok ⟨none, 0, [], false⟩ from rfl] at hres
    injection hres with h'
    rw [← h']
    exact ⟨rfl, rfl⟩
  | some f =>
    rw [show singleFileDriver cs rid outdir (some f) listdir env t1 t2 t3
        = (if f = "" then Except.ok ⟨none, 0, [], false⟩ else
            match write_log env f cs rid 1 none "red" t1 t2 t3 with
            | (_, .error e) => .error e
            | (w, .ok meta) =>
              match writeOutputs w 1 with
              | .error e => .error e
              | .ok files =>
                .ok ⟨files, 1, [f], meta.painted⟩) from rfl] at hres
    split at hres
    · rename_i hf
      injection hres with h'
      rw [← h']
      refine ⟨rfl, ?_⟩
      simp [hf]
    · rename_i hf
      split at hres
      · exact Except.noConfusion hres
      · rename_i w meta hw
        split at hres
        · exact Except.noConfusion hres
        · rename_i files ho
          injection hres with h'
          rw [← h']
          refine ⟨write_log_painted hw, ?_⟩
          simp [hf]

/-- C10 witness: a concrete single-file run agrees with the single-file
driver, paints nothing, and processes exactly the designated file. -/
theorem C10_wit :
    ysfMain "CALL" "12345" "out" (some "a.jpg") emptyListdir sampleEnv
        sampleDate sampleDate sampleDate
      = singleFileDriver "CALL" "12345" "out" (some "a.jpg") emptyListdir
          sampleEnv sampleDate sampleDate sampleDate
    ∧ (ysfMain "CALL" "12345" "out" (some "a.jpg") emptyListdir sampleEnv
        sampleDate sampleDate sampleDate).map
        (fun r => (r.painted, r.processed))
      = Except.ok (false, ["a.jpg"]) := by
  have h := C10_main_single_file "CALL" "12345" "out" (some "a.jpg")
    emptyListdir sampleEnv sampleDate sampleDate sampleDate
  obtain ⟨res, hres⟩ : ∃ res, ysfMain "CALL" "12345" "out" (some "a.jpg")
      emptyListdir sampleEnv sampleDate sampleDate sampleDate
      = Except.ok res := ⟨_, rfl⟩
  have hp := h.2.1 res hres
  refine ⟨h.1, ?_⟩
  rw [hres]
  simp [Except.map, hp.1, hp.2]
